import Mathlib

/-!
Shallow embedding of webapp/go/reaction_handler.go (reaction listing and
posting for a livestream platform) and proofs about its batch
response-assembly algorithm, error taxonomy and transaction discipline.

Database access is modelled by an explicit environment of query functions
(`Env`), and every embedded operation returns, next to its result, the list
of store operations it performed (`DBEvent`), so that query-count and
rollback properties can be stated.  Fallible Go code returning `error`
becomes `Except DBErr`.  Concrete sample tables near the end of the
definitions instantiate the universally quantified theorems on closed
inputs.
-/

deriving instance DecidableEq for Except

namespace Isu

/-- Raw row model of the reactions table (struct ReactionModel). -/
structure ReactionModel where
  id : Int
  emojiName : String
  userID : Int
  livestreamID : Int
  createdAt : Int
deriving DecidableEq, Repr

/-- Raw row model of the users table (struct UserModel, declared in the
user handler of the same package; fields pinned by their uses in
reaction_handler.go: ID, Name, DisplayName, Description). -/
structure UserModel where
  id : Int
  name : String
  displayName : String
  description : String
deriving DecidableEq, Repr

/-- Go zero value of UserModel, produced by indexing a map at a missing key. -/
def UserModel.zero : UserModel :=
  { id := 0, name := "", displayName := "", description := "" }

/-- Raw row model of the themes table (struct ThemeModel; fields pinned by
their uses in reaction_handler.go: ID, UserID, DarkMode). -/
structure ThemeModel where
  id : Int
  userID : Int
  darkMode : Bool
deriving DecidableEq, Repr

/-- Go zero value of ThemeModel. -/
def ThemeModel.zero : ThemeModel := { id := 0, userID := 0, darkMode := false }

/-- Row shape of the icon-hash bulk query: SELECT i.user_id, ih.hash FROM
icon_hashes AS ih JOIN icons AS i ... (anonymous struct in fillUserResponses). -/
structure IconHashRow where
  userID : Int
  hash : String
deriving DecidableEq, Repr

/-- Raw row model of the livestreams table.  Modelled from the spec: the
livestream struct lives in the livestream handler (outside the given
sources); its hydration is delegated to an external routine, and only its
identifier is touched by the reaction flow, so only the identifier is kept. -/
structure LivestreamModel where
  id : Int
deriving DecidableEq, Repr

/-- Theme part of the externally shaped User response. -/
structure Theme where
  id : Int
  darkMode : Bool
deriving DecidableEq, Repr

/-- Externally shaped User response (struct User; fields pinned by their
construction in fillUserResponses). -/
structure User where
  id : Int
  name : String
  displayName : String
  description : String
  theme : Theme
  iconHash : String
deriving DecidableEq, Repr

/-- Go zero value of the User response struct. -/
def User.zero : User :=
  { id := 0, name := "", displayName := "", description := "",
    theme := { id := 0, darkMode := false }, iconHash := "" }

/-- Externally shaped Livestream response.  Modelled from the spec: full
hydration is delegated to an external livestream-assembly routine; only the
identifier (used as the map key in fillReactionResponses) is kept. -/
structure Livestream where
  id : Int
deriving DecidableEq, Repr

/-- Go zero value of the Livestream response. -/
def Livestream.zero : Livestream := { id := 0 }

/-- Externally shaped Reaction response (struct Reaction). -/
structure Reaction where
  id : Int
  emojiName : String
  user : User
  livestream : Livestream
  createdAt : Int
deriving DecidableEq, Repr

/-- Request body of the post-reaction operation (struct PostReactionRequest). -/
structure PostReactionRequest where
  emojiName : String
deriving DecidableEq, Repr

/-- Modelled from the spec: fallbackImageHash is "a well-known default hash
constant" declared in the icon handler, outside the given sources.  Its
exact value is not pinned by the spec; it is modelled as a fixed non-empty
content-hash string. -/
def fallbackImageHash : String :=
  "d9f8294e9d895f81ce62e73dc7d5dff862a4fa40bd4e0fecf53f7526a8edcac0"

/-- Errors surfaced by the persistence layer.  noRows models sql.ErrNoRows,
returned by a scalar Get that matches zero rows; other covers every other
driver or composition failure, carrying its message. -/
inductive DBErr where
  | noRows : DBErr
  | other : String → DBErr
deriving DecidableEq, Repr

/-- Error string of a persistence error, as produced by Go's err.Error(). -/
def DBErr.message : DBErr → String
  | .noRows => "sql: no rows in result set"
  | .other msg => msg

/-- Store operations performed by the embedded handlers, in order.  The
query events record the argument lists actually handed to the store. -/
inductive DBEvent where
  | beginTx : DBEvent
  | commitTx : DBEvent
  | rollbackTx : DBEvent
  | queryUsersIn : List Int → DBEvent
  | queryThemesIn : List Int → DBEvent
  | queryIconHashesIn : List Int → DBEvent
  | queryLivestreamsIn : List Int → DBEvent
  | queryReactions : Int → Option Int → DBEvent
  | queryUserById : Int → DBEvent
  | queryLivestreamById : Int → DBEvent
  | insertReaction : DBEvent
deriving DecidableEq, Repr

/-- Discriminator: is this event a SELECT or INSERT (a query), as opposed to
a transaction control operation. -/
def DBEvent.isQuery : DBEvent → Bool
  | .beginTx => false
  | .commitTx => false
  | .rollbackTx => false
  | _ => true

/-- Discriminator for the bulk users query. -/
def DBEvent.isUsersIn : DBEvent → Bool
  | .queryUsersIn _ => true
  | _ => false

/-- Discriminator for the bulk themes query. -/
def DBEvent.isThemesIn : DBEvent → Bool
  | .queryThemesIn _ => true
  | _ => false

/-- Discriminator for the bulk icon-hash query. -/
def DBEvent.isIconHashesIn : DBEvent → Bool
  | .queryIconHashesIn _ => true
  | _ => false

/-- Discriminator for the bulk livestreams query. -/
def DBEvent.isLivestreamsIn : DBEvent → Bool
  | .queryLivestreamsIn _ => true
  | _ => false

/-- Number of events in a trace satisfying a discriminator. -/
def countEv (p : DBEvent → Bool) (es : List DBEvent) : Nat :=
  (es.filter p).length

/-- Go map from int64 keys, with insertion overwriting (map[int64]V). -/
def GoMap (α : Type) : Type := Int → Option α

/-- Empty Go map. -/
def GoMap.empty {α : Type} : GoMap α := fun _ => none

/-- Go map assignment m[k] = v. -/
def GoMap.insert {α : Type} (m : GoMap α) (k : Int) (v : α) : GoMap α :=
  fun q => if q = k then some v else m q

/-- Build a map keyed by a projection from a slice of rows, one pass, later
rows overwriting earlier ones — the for-range loops building userMap,
themeMap, hashMap and livestreamMap. -/
def buildMapBy {α : Type} (xs : List α) (key : α → Int) : GoMap α :=
  xs.foldl (fun m x => m.insert (key x) x) GoMap.empty

/-- Environment of store and collaborator operations a handler runs
against.  The select/get/insert fields model the sqlx transaction surface;
verifySession, fillUserResponse, fillLivestreamResponse and
fillLivestreamResponses model collaborators defined outside
reaction_handler.go. -/
structure Env where
  verifySession : Except (Nat × String) Unit
  sessionUserID : Int
  now : Int
  beginTx : Except DBErr Unit
  commitTx : Except DBErr Unit
  selectReactions : Int → Option Int → Except DBErr (List ReactionModel)
  selectUsersIn : List Int → Except DBErr (List UserModel)
  selectThemesIn : List Int → Except DBErr (List ThemeModel)
  selectIconHashesIn : List Int → Except DBErr (List IconHashRow)
  selectLivestreamsIn : List Int → Except DBErr (List LivestreamModel)
  getUserById : Int → Except DBErr UserModel
  getLivestreamById : Int → Except DBErr LivestreamModel
  fillUserResponse : UserModel → Except DBErr User
  fillLivestreamResponse : LivestreamModel → Except DBErr Livestream
  fillLivestreamResponses : List LivestreamModel → Except DBErr (List Livestream)
  insertReaction : ReactionModel → Except DBErr Unit
  lastInsertId : Except DBErr Int

/-- Message of the error sqlx.In returns when handed an empty id slice. -/
def sqlxInEmptyMsg : String := "empty slice passed to 'in' query"

/-- One sqlx.In expansion followed by a SelectContext: fails without
touching the store when the id slice is empty, otherwise records the query
event, and on success continues with the returned rows. -/
def runInQuery {α β : Type} (ids : List Int) (ev : DBEvent)
    (q : Except DBErr α) (k : α → List DBEvent × Except DBErr β) :
    List DBEvent × Except DBErr β :=
  if ids.isEmpty then ([], .error (.other sqlxInEmptyMsg))
  else
    match q with
    | .error e => ([ev], .error e)
    | .ok rows =>
      match k rows with
      | (es, r) => (ev :: es, r)

/-- Synthesis of one User response entry in the final loop of
fillUserResponses: required rows fall back to Go zero values when their map
entry is missing, the icon hash falls back to fallbackImageHash. -/
def mkUser (userMap : GoMap UserModel) (themeMap : GoMap ThemeModel)
    (hashMap : GoMap IconHashRow) (uid : Int) : User :=
  let um := (userMap uid).getD UserModel.zero
  let tm := (themeMap uid).getD ThemeModel.zero
  let iconHash :=
    match hashMap uid with
    | some row => row.hash
    | none => fallbackImageHash
  { id := um.id, name := um.name, displayName := um.displayName,
    description := um.description,
    theme := { id := tm.id, darkMode := tm.darkMode }, iconHash := iconHash }

/-- fillUserResponses: bulk-loads users, themes and icon hashes for the
given user ids (one IN query each) and synthesizes the map of User
responses keyed by user id. -/
def fillUserResponses (env : Env) (userIDs : List Int) :
    List DBEvent × Except DBErr (GoMap User) :=
  runInQuery userIDs (.queryUsersIn userIDs) (env.selectUsersIn userIDs)
    fun userModels =>
  let userMap := buildMapBy userModels (fun u => u.id)
  runInQuery userIDs (.queryThemesIn userIDs) (env.selectThemesIn userIDs)
    fun themeModels =>
  let themeMap := buildMapBy themeModels (fun t => t.userID)
  runInQuery userIDs (.queryIconHashesIn userIDs) (env.selectIconHashesIn userIDs)
    fun iconRows =>
  let hashMap := buildMapBy iconRows (fun r => r.userID)
  ([], .ok (userIDs.foldl
    (fun m uid => m.insert uid (mkUser userMap themeMap hashMap uid))
    GoMap.empty))

/-- User id list built by fillReactionResponses: make([]int64, len(rms))
followed by append keeps the len(rms) zero entries and appends one user id
per record, duplicates included. -/
def userIDsOf (rms : List ReactionModel) : List Int :=
  List.replicate rms.length 0 ++ rms.map (fun r => r.userID)

/-- Livestream id list built by fillReactionResponses, same shape as
userIDsOf. -/
def livestreamIDsOf (rms : List ReactionModel) : List Int :=
  List.replicate rms.length 0 ++ rms.map (fun r => r.livestreamID)

/-- Composition of one Reaction response from its record and the resolving
functions for users and livestreams (the body of the final loop of
fillReactionResponses). -/
def composeReaction (uL : Int → User) (lL : Int → Livestream)
    (rm : ReactionModel) : Reaction :=
  { id := rm.id, emojiName := rm.emojiName, user := uL rm.userID,
    livestream := lL rm.livestreamID, createdAt := rm.createdAt }

/-- fillReactionResponses: the batch assembler.  Empty input returns
immediately; otherwise it bulk-loads user responses, bulk-loads and
hydrates livestreams, and emits one composed Reaction per input record in
input order, resolving foreign keys through the two maps (Go map indexing,
so a missing key yields the zero value). -/
def fillReactionResponses (env : Env) (reactionModels : List ReactionModel) :
    List DBEvent × Except DBErr (List Reaction) :=
  if reactionModels.isEmpty then ([], .ok [])
  else
    match fillUserResponses env (userIDsOf reactionModels) with
    | (es, .error e) => (es, .error e)
    | (es, .ok userResps) =>
      let livestreamIDs := livestreamIDsOf reactionModels
      let step2 :=
        runInQuery livestreamIDs (.queryLivestreamsIn livestreamIDs)
          (env.selectLivestreamsIn livestreamIDs) fun livestreamModels =>
          match env.fillLivestreamResponses livestreamModels with
          | .error e => ([], .error e)
          | .ok livestreamResps =>
            let livestreamMap := buildMapBy livestreamResps (fun l => l.id)
            ([], .ok (reactionModels.map (composeReaction
              (fun uid => (userResps uid).getD User.zero)
              (fun lid => (livestreamMap lid).getD Livestream.zero))))
      (es ++ step2.1, step2.2)

/-- fillReactionResponse: the single-record assembler; two scalar-by-id
lookups plus the external hydration routines, every error propagating
unchanged. -/
def fillReactionResponse (env : Env) (rm : ReactionModel) :
    List DBEvent × Except DBErr Reaction :=
  match env.getUserById rm.userID with
  | .error e => ([.queryUserById rm.userID], .error e)
  | .ok userModel =>
    match env.fillUserResponse userModel with
    | .error e => ([.queryUserById rm.userID], .error e)
    | .ok user =>
      match env.getLivestreamById rm.livestreamID with
      | .error e =>
        ([.queryUserById rm.userID, .queryLivestreamById rm.livestreamID],
         .error e)
      | .ok livestreamModel =>
        match env.fillLivestreamResponse livestreamModel with
        | .error e =>
          ([.queryUserById rm.userID, .queryLivestreamById rm.livestreamID],
           .error e)
        | .ok livestream =>
          ([.queryUserById rm.userID, .queryLivestreamById rm.livestreamID],
           .ok { id := rm.id, emojiName := rm.emojiName, user := user,
                 livestream := livestream, createdAt := rm.createdAt })

/-- Handler outcome: a JSON success response, an echo HTTP error, or a
runtime panic. -/
inductive HOut (α : Type) where
  | ok : α → HOut α
  | httpError : Nat → String → HOut α
  | panicked : String → HOut α
deriving DecidableEq, Repr

/-- Message of the Go runtime panic raised by dereferencing a nil pointer. -/
def nilDerefMsg : String :=
  "runtime error: invalid memory address or nil pointer dereference"

/-- Request shape of the list-reactions operation: the livestream_id path
parameter and the limit query parameter (QueryParam yields the empty string
when the parameter is absent). -/
structure GetReq where
  livestreamIDParam : String
  limitParam : String
deriving DecidableEq, Repr

/-- JSON request body of the post-reaction operation, as far as decoding
into *PostReactionRequest distinguishes: the JSON literal null, a JSON
object (with its emoji_name member when present and a string), or any body
the decoder rejects. -/
inductive JsonBody where
  | null : JsonBody
  | object : Option String → JsonBody
  | malformed : JsonBody
deriving DecidableEq, Repr

/-- Request shape of the post-reaction operation. -/
structure PostReq where
  livestreamIDParam : String
  body : JsonBody
deriving DecidableEq, Repr

/-- Go json.NewDecoder(...).Decode(&req) with req a *PostReactionRequest:
null decodes to a nil pointer with no error, an object allocates the struct
(missing member giving the zero string), anything else is a decode error. -/
def decodeBody : JsonBody → Except Unit (Option PostReactionRequest)
  | .null => .ok none
  | .object e => .ok (some { emojiName := e.getD "" })
  | .malformed => .error ()

/-- Go strconv.Atoi: optional single leading sign, then at least one
decimal digit, value within the int64 range; anything else errors. -/
def goAtoi (s : String) : Except Unit Int :=
  let cs := s.data
  let signed : Bool × List Char :=
    match cs with
    | '-' :: rest => (true, rest)
    | '+' :: rest => (false, rest)
    | _ => (false, cs)
  let neg := signed.1
  let ds := signed.2
  if ds.isEmpty then .error ()
  else if ds.all Char.isDigit then
    let n : Nat := ds.foldl (fun acc d => acc * 10 + (d.toNat - 48)) 0
    if neg then
      if n ≤ 2 ^ 63 then .ok (-(n : Int)) else .error ()
    else
      if n ≤ 2 ^ 63 - 1 then .ok (n : Int) else .error ()
  else .error ()

/-- Limit handling of getReactionsHandler: an absent limit parameter leaves
the query unbounded, a present one must parse as an integer. -/
def parseLimit (s : String) : Except Unit (Option Int) :=
  if s = "" then .ok none
  else
    match goAtoi s with
    | .error e => .error e
    | .ok v => .ok (some v)

/-- Scoped transaction: BeginTxx succeeded, the body ran, and the deferred
tx.Rollback() runs on every exit path of the handler, also after a
successful commit (where it is a no-op whose error is discarded). -/
def withTx {α : Type} (body : List DBEvent × α) : List DBEvent × α :=
  (DBEvent.beginTx :: (body.1 ++ [DBEvent.rollbackTx]), body.2)

/-- Transaction body of getReactionsHandler: parse limit, run the reactions
query, batch-assemble, commit. -/
def getReactionsTx (env : Env) (livestreamID : Int) (limitParam : String) :
    List DBEvent × HOut (List Reaction) :=
  match parseLimit limitParam with
  | .error _ => ([], .httpError 400 "limit query parameter must be integer")
  | .ok limit =>
    match env.selectReactions livestreamID limit with
    | .error _ =>
      ([.queryReactions livestreamID limit],
       .httpError 404 "failed to get reactions")
    | .ok reactionModels =>
      match fillReactionResponses env reactionModels with
      | (es, .error e) =>
        (.queryReactions livestreamID limit :: es,
         .httpError 500 ("failed to fill reactions: " ++ e.message))
      | (es, .ok reactions) =>
        match env.commitTx with
        | .error e =>
          (.queryReactions livestreamID limit :: es,
           .httpError 500 ("failed to commit: " ++ e.message))
        | .ok _ =>
          (.queryReactions livestreamID limit :: (es ++ [.commitTx]),
           .ok reactions)

/-- getReactionsHandler: session check, path parsing, then the scoped
transaction around the listing flow. -/
def getReactionsHandler (env : Env) (req : GetReq) :
    List DBEvent × HOut (List Reaction) :=
  match env.verifySession with
  | .error p => ([], .httpError p.1 p.2)
  | .ok _ =>
    match goAtoi req.livestreamIDParam with
    | .error _ => ([], .httpError 400 "livestream_id in path must be integer")
    | .ok livestreamID =>
      match env.beginTx with
      | .error e =>
        ([], .httpError 500 ("failed to begin transaction: " ++ e.message))
      | .ok _ => withTx (getReactionsTx env livestreamID req.limitParam)

/-- Reaction model assembled by postReactionHandler before the insert (its
id is still the zero value). -/
def pendingReaction (userID livestreamID : Int) (emojiName : String)
    (createdAt : Int) : ReactionModel :=
  { id := 0, emojiName := emojiName, userID := userID,
    livestreamID := livestreamID, createdAt := createdAt }

/-- Transaction body of postReactionHandler: reading req.EmojiName from a
nil request pointer is the nil-pointer dereference panic; otherwise insert,
take the new id, re-assemble the row, commit. -/
def postReactionTx (env : Env) (livestreamID userID : Int)
    (reqPtr : Option PostReactionRequest) : List DBEvent × HOut Reaction :=
  match reqPtr with
  | none => ([], .panicked nilDerefMsg)
  | some r =>
    let reactionModel := pendingReaction userID livestreamID r.emojiName env.now
    match env.insertReaction reactionModel with
    | .error e =>
      ([.insertReaction], .httpError 500 ("failed to insert reaction: " ++ e.message))
    | .ok _ =>
      match env.lastInsertId with
      | .error e =>
        ([.insertReaction],
         .httpError 500 ("failed to get last inserted reaction id: " ++ e.message))
      | .ok reactionID =>
        match fillReactionResponse env { reactionModel with id := reactionID } with
        | (es, .error e) =>
          (.insertReaction :: es,
           .httpError 500 ("failed to fill reaction: " ++ e.message))
        | (es, .ok reaction) =>
          match env.commitTx with
          | .error e =>
            (.insertReaction :: es,
             .httpError 500 ("failed to commit: " ++ e.message))
          | .ok _ => (.insertReaction :: (es ++ [.commitTx]), .ok reaction)

/-- postReactionHandler: path parsing, session check, body decode, then the
scoped transaction around the insert-and-assemble flow. -/
def postReactionHandler (env : Env) (req : PostReq) :
    List DBEvent × HOut Reaction :=
  match goAtoi req.livestreamIDParam with
  | .error _ => ([], .httpError 400 "livestream_id in path must be integer")
  | .ok livestreamID =>
    match env.verifySession with
    | .error p => ([], .httpError p.1 p.2)
    | .ok _ =>
      let userID := env.sessionUserID
      match decodeBody req.body with
      | .error _ =>
        ([], .httpError 400 "failed to decode the request body as json")
      | .ok reqPtr =>
        match env.beginTx with
        | .error e =>
          ([], .httpError 500 ("failed to begin transaction: " ++ e.message))
        | .ok _ => withTx (postReactionTx env livestreamID userID reqPtr)

/-- Finite table state used to build concrete environments for witnesses. -/
structure DB where
  users : List UserModel
  themes : List ThemeModel
  iconHashes : List IconHashRow
  livestreams : List LivestreamModel
  reactions : List ReactionModel
deriving Repr

/-- LIMIT clause applied to a result list. -/
def applyLimit {α : Type} : Option Int → List α → List α
  | none, xs => xs
  | some n, xs => xs.take n.toNat

/-- Concrete environment over a finite table state: IN queries filter rows
by membership in table order, scalar gets return the first matching row or
the no-rows error, collaborators succeed with identifier-preserving
hydration.  Used to instantiate the universally quantified theorems on
concrete inputs; the ORDER BY of the reactions listing is not modelled, as
no claim here depends on it. -/
def mkEnv (db : DB) : Env :=
  { verifySession := .ok ()
    sessionUserID := 1
    now := 1000
    beginTx := .ok ()
    commitTx := .ok ()
    selectReactions := fun lsid lim =>
      .ok (applyLimit lim (db.reactions.filter (fun r => r.livestreamID == lsid)))
    selectUsersIn := fun ids => .ok (db.users.filter (fun u => ids.contains u.id))
    selectThemesIn := fun ids =>
      .ok (db.themes.filter (fun t => ids.contains t.userID))
    selectIconHashesIn := fun ids =>
      .ok (db.iconHashes.filter (fun r => ids.contains r.userID))
    selectLivestreamsIn := fun ids =>
      .ok (db.livestreams.filter (fun l => ids.contains l.id))
    getUserById := fun uid =>
      match db.users.filter (fun u => u.id == uid) with
      | [] => .error .noRows
      | u :: _ => .ok u
    getLivestreamById := fun lid =>
      match db.livestreams.filter (fun l => l.id == lid) with
      | [] => .error .noRows
      | l :: _ => .ok l
    fillUserResponse := fun um =>
      .ok { id := um.id, name := um.name, displayName := um.displayName,
            description := um.description,
            theme := { id := 0, darkMode := false },
            iconHash := fallbackImageHash }
    fillLivestreamResponse := fun lm => .ok { id := lm.id }
    fillLivestreamResponses := fun lms => .ok (lms.map (fun lm => { id := lm.id }))
    insertReaction := fun _ => .ok ()
    lastInsertId := .ok 1 }

def dbW : DB :=
  { users := [{ id := 1, name := "alice", displayName := "Alice", description := "hi" },
              { id := 2, name := "bob", displayName := "Bob", description := "yo" }]
    themes := [{ id := 11, userID := 1, darkMode := true },
               { id := 12, userID := 2, darkMode := false }]
    iconHashes := [{ userID := 2, hash := "abc123" }]
    livestreams := [{ id := 5 }, { id := 6 }]
    reactions := [] }

def rmA : ReactionModel :=
  { id := 10, emojiName := ":tada:", userID := 1, livestreamID := 5,
    createdAt := 100 }

def rmB : ReactionModel :=
  { id := 11, emojiName := ":smile:", userID := 1, livestreamID := 5,
    createdAt := 99 }

def rmC : ReactionModel :=
  { id := 12, emojiName := ":eyes:", userID := 2, livestreamID := 6,
    createdAt := 98 }

def dbNoUser : DB :=
  { users := [], themes := [], iconHashes := [],
    livestreams := [{ id := 5 }], reactions := [] }

def envW : Env := mkEnv dbW

def envBadSelect : Env :=
  { mkEnv dbW with
    selectReactions := fun _ _ => .error (.other "connection refused") }

def reqGetW : GetReq := { livestreamIDParam := "5", limitParam := "" }

def reqBadLimit : GetReq := { livestreamIDParam := "5", limitParam := "abc" }

def reqPostW : PostReq :=
  { livestreamIDParam := "5", body := .object (some ":tada:") }

def reqNullBody : PostReq := { livestreamIDParam := "5", body := JsonBody.null }

def uAliceResp : User :=
  { id := 1, name := "alice", displayName := "Alice", description := "hi",
    theme := { id := 11, darkMode := true }, iconHash := fallbackImageHash }

def uBobResp : User :=
  { id := 2, name := "bob", displayName := "Bob", description := "yo",
    theme := { id := 12, darkMode := false }, iconHash := "abc123" }

def esW : List DBEvent :=
  [.queryUsersIn [0, 0, 0, 1, 1, 2], .queryThemesIn [0, 0, 0, 1, 1, 2],
   .queryIconHashesIn [0, 0, 0, 1, 1, 2], .queryLivestreamsIn [0, 0, 0, 5, 5, 6]]

def rsW : List Reaction :=
  [{ id := 10, emojiName := ":tada:", user := uAliceResp,
     livestream := { id := 5 }, createdAt := 100 },
   { id := 11, emojiName := ":smile:", user := uAliceResp,
     livestream := { id := 5 }, createdAt := 99 },
   { id := 12, emojiName := ":eyes:", user := uBobResp,
     livestream := { id := 6 }, createdAt := 98 }]

def esW2 : List DBEvent :=
  [.queryUsersIn [0, 0, 2, 1], .queryThemesIn [0, 0, 2, 1],
   .queryIconHashesIn [0, 0, 2, 1], .queryLivestreamsIn [0, 0, 6, 5]]

def rsW2 : List Reaction :=
  [{ id := 12, emojiName := ":eyes:", user := uBobResp,
     livestream := { id := 6 }, createdAt := 98 },
   { id := 10, emojiName := ":tada:", user := uAliceResp,
     livestream := { id := 5 }, createdAt := 100 }]

theorem runInQuery_empty {α β : Type} (ids : List Int) (ev : DBEvent)
    (q : Except DBErr α) (k : α → List DBEvent × Except DBErr β)
    (h : ids.isEmpty = true) :
    runInQuery ids ev q k = ([], .error (.other sqlxInEmptyMsg)) := by
  simp [runInQuery, h]

theorem runInQuery_err {α β : Type} (ids : List Int) (ev : DBEvent) (e : DBErr)
    (k : α → List DBEvent × Except DBErr β) (h : ids.isEmpty = false) :
    runInQuery ids ev (.error e) k = ([ev], .error e) := by
  simp [runInQuery, h]

theorem runInQuery_ok {α β : Type} (ids : List Int) (ev : DBEvent) (rows : α)
    (k : α → List DBEvent × Except DBErr β) (h : ids.isEmpty = false) :
    runInQuery ids ev (.ok rows) k = (ev :: (k rows).1, (k rows).2) := by
  simp [runInQuery, h]

theorem fillUserResponses_ok (env : Env) (ids : List Int) (es : List DBEvent)
    (m : GoMap User)
    (h : fillUserResponses env ids = (es, .ok m)) :
    es = [DBEvent.queryUsersIn ids, DBEvent.queryThemesIn ids,
          DBEvent.queryIconHashesIn ids] ∧
    ∃ ums tms ihs,
      env.selectUsersIn ids = .ok ums ∧ env.selectThemesIn ids = .ok tms ∧
      env.selectIconHashesIn ids = .ok ihs ∧
      m = ids.foldl (fun mm uid => mm.insert uid
            (mkUser (buildMapBy ums (fun u => u.id))
                    (buildMapBy tms (fun t => t.userID))
                    (buildMapBy ihs (fun r => r.userID)) uid)) GoMap.empty := by
  by_cases hemp : ids.isEmpty
  · rw [fillUserResponses, runInQuery_empty _ _ _ _ hemp] at h
    simp at h
  · have hne : ids.isEmpty = false := Bool.eq_false_iff.mpr hemp
    rcases h1 : env.selectUsersIn ids with e | ums
    · rw [fillUserResponses, h1, runInQuery_err _ _ _ _ hne] at h
      simp at h
    · rcases h2 : env.selectThemesIn ids with e | tms
      · rw [fillUserResponses, h1, runInQuery_ok _ _ _ _ hne] at h
        dsimp only at h
        rw [h2, runInQuery_err _ _ _ _ hne] at h
        simp at h
      · rcases h3 : env.selectIconHashesIn ids with e | ihs
        · rw [fillUserResponses, h1, runInQuery_ok _ _ _ _ hne] at h
          dsimp only at h
          rw [h2, runInQuery_ok _ _ _ _ hne] at h
          dsimp only at h
          rw [h3, runInQuery_err _ _ _ _ hne] at h
          simp at h
        · rw [fillUserResponses, h1, runInQuery_ok _ _ _ _ hne] at h
          dsimp only at h
          rw [h2, runInQuery_ok _ _ _ _ hne] at h
          dsimp only at h
          rw [h3, runInQuery_ok _ _ _ _ hne] at h
          dsimp only at h
          obtain ⟨hes, hm⟩ := Prod.mk.injEq .. ▸ h
          refine ⟨hes.symm, ums, tms, ihs, rfl, rfl, rfl, ?_⟩
          exact (Except.ok.injEq _ _ ▸ hm).symm

theorem fillReactionResponses_ok_nonempty (env : Env) (rms : List ReactionModel)
    (es : List DBEvent) (rs : List Reaction)
    (h : fillReactionResponses env rms = (es, .ok rs)) (hne : rms ≠ []) :
    ∃ userResps lrs,
      fillUserResponses env (userIDsOf rms) =
        ([DBEvent.queryUsersIn (userIDsOf rms),
          DBEvent.queryThemesIn (userIDsOf rms),
          DBEvent.queryIconHashesIn (userIDsOf rms)], .ok userResps) ∧
      es = [DBEvent.queryUsersIn (userIDsOf rms),
            DBEvent.queryThemesIn (userIDsOf rms),
            DBEvent.queryIconHashesIn (userIDsOf rms),
            DBEvent.queryLivestreamsIn (livestreamIDsOf rms)] ∧
      rs = rms.map (composeReaction
        (fun uid => (userResps uid).getD User.zero)
        (fun lid => ((buildMapBy lrs (fun l => l.id)) lid).getD Livestream.zero)) := by
  have hne2 : rms.isEmpty = false := by
    cases rms with
    | nil => exact absurd rfl hne
    | cons a as => rfl
  have hneL : (livestreamIDsOf rms).isEmpty = false := by
    cases rms with
    | nil => exact absurd rfl hne
    | cons a as => rfl
  rcases hfu : fillUserResponses env (userIDsOf rms) with ⟨esU, rU⟩
  cases rU with
  | error e =>
    rw [fillReactionResponses] at h
    simp only [hne2, Bool.false_eq_true, if_false, hfu] at h
    simp at h
  | ok userResps =>
    rw [fillReactionResponses] at h
    simp only [hne2, Bool.false_eq_true, if_false, hfu] at h
    rcases h4 : env.selectLivestreamsIn (livestreamIDsOf rms) with e | lms
    · rw [h4, runInQuery_err _ _ _ _ hneL] at h
      simp at h
    · rw [h4, runInQuery_ok _ _ _ _ hneL] at h
      dsimp only at h
      rcases h5 : env.fillLivestreamResponses lms with e | lrs
      · rw [h5] at h
        simp at h
      · rw [h5] at h
        dsimp only at h
        obtain ⟨hes, hrs⟩ := Prod.mk.injEq .. ▸ h
        obtain ⟨h1, -⟩ := fillUserResponses_ok env _ esU userResps hfu
        subst h1
        refine ⟨userResps, lrs, rfl, ?_, ?_⟩
        · rw [← hes]
          rfl
        · exact (Except.ok.injEq _ _ ▸ hrs).symm

theorem foldl_insert_lookup {α : Type} (f : Int → α) (k : Int) :
    ∀ (ids : List Int) (m0 : GoMap α),
      (ids.foldl (fun m i => m.insert i (f i)) m0) k =
        if k ∈ ids then some (f k) else m0 k
  | [], m0 => by simp [GoMap.empty]
  | i :: ids, m0 => by
    rw [List.foldl_cons, foldl_insert_lookup f k ids]
    by_cases h2 : k = i
    · subst h2
      by_cases h : k ∈ ids <;> simp [GoMap.insert, h, List.mem_cons]
    · by_cases h : k ∈ ids <;> simp [GoMap.insert, h, h2, List.mem_cons]

theorem foldl_insertBy_lookup {α : Type} (key : α → Int) (k : Int) :
    ∀ (xs : List α) (m0 : GoMap α), (∀ x ∈ xs, key x ≠ k) →
      (xs.foldl (fun m x => m.insert (key x) x) m0) k = m0 k
  | [], _, _ => rfl
  | x :: xs, m0, h => by
    rw [List.foldl_cons, foldl_insertBy_lookup key k xs _
      (fun y hy => h y (List.mem_cons_of_mem _ hy))]
    simp only [GoMap.insert]
    rw [if_neg (fun hh => h x (List.mem_cons_self x xs) hh.symm)]

theorem buildMapBy_lookup_none {α : Type} (xs : List α) (key : α → Int) (k : Int)
    (h : ∀ x ∈ xs, key x ≠ k) : buildMapBy xs key k = none :=
  foldl_insertBy_lookup key k xs GoMap.empty h

/-- Lookup of one synthesized User response after a successful run of
fillUserResponses. -/
def userRespOf (env : Env) (ids : List Int) (uid : Int) : Option User :=
  match (fillUserResponses env ids).2 with
  | .ok m => m uid
  | .error _ => none

/-- C1: for every non-empty record list, a successful batch assembly issues
exactly one bulk users query, one bulk themes query, one bulk icon-hash
query and one bulk livestreams query, whatever the record count. -/
theorem bulkQueryInvariant (env : Env) (rms : List ReactionModel)
    (es : List DBEvent) (rs : List Reaction)
    (hne : rms ≠ [])
    (h : fillReactionResponses env rms = (es, Except.ok rs)) :
    countEv DBEvent.isUsersIn es = 1 ∧ countEv DBEvent.isThemesIn es = 1 ∧
    countEv DBEvent.isIconHashesIn es = 1 ∧
    countEv DBEvent.isLivestreamsIn es = 1 := by
  obtain ⟨userResps, lrs, -, hes, -⟩ :=
    fillReactionResponses_ok_nonempty env rms es rs h hne
  subst hes
  simp [countEv, DBEvent.isUsersIn, DBEvent.isThemesIn,
        DBEvent.isIconHashesIn, DBEvent.isLivestreamsIn, List.filter]

/-- C2: the output of a successful batch assembly has one entry per input
record, at the same position, composed from that record's own fields and
the user and livestream resolved for its foreign keys through one common
resolving function each. -/
theorem outputOrderMirrorsInput (env : Env) (rms : List ReactionModel)
    (es : List DBEvent) (rs : List Reaction)
    (h : fillReactionResponses env rms = (es, Except.ok rs)) :
    rs.length = rms.length ∧
    ∃ uL lL, rs = rms.map (composeReaction uL lL) := by
  by_cases hne : rms = []
  · subst hne
    have h2 : (([] : List DBEvent), Except.ok ([] : List Reaction)) =
        (es, Except.ok rs) := h
    obtain ⟨-, hrs⟩ := Prod.mk.injEq .. ▸ h2
    obtain rfl : ([] : List Reaction) = rs := Except.ok.injEq .. ▸ hrs
    exact ⟨rfl, fun _ => User.zero, fun _ => Livestream.zero, rfl⟩
  · obtain ⟨userResps, lrs, -, -, hrs⟩ :=
      fillReactionResponses_ok_nonempty env rms es rs h hne
    subst hrs
    exact ⟨by simp, _, _, rfl⟩

/-- C4: a user id requested from fillUserResponses for which the icon-hash
query returned no row is synthesized with the fallback hash constant, and
that hash field is not empty. -/
theorem iconHashFallback (env : Env) (ids : List Int) (uid : Int)
    (ihs : List IconHashRow)
    (hmem : uid ∈ ids)
    (hicon : env.selectIconHashesIn ids = Except.ok ihs)
    (hnone : ihs.all (fun r => r.userID != uid) = true)
    (hok : ((fillUserResponses env ids).2).isOk = true) :
    ∃ u, userRespOf env ids uid = some u ∧
      u.iconHash = fallbackImageHash ∧ u.iconHash ≠ "" := by
  rcases hres : (fillUserResponses env ids).2 with e | m
  · rw [hres] at hok; simp [Except.isOk, Except.toBool] at hok
  · have h : fillUserResponses env ids = ((fillUserResponses env ids).1, Except.ok m) := by
      rw [← hres]
    obtain ⟨-, ums, tms, ihs2, -, -, hicon2, hm⟩ :=
      fillUserResponses_ok env ids (fillUserResponses env ids).1 m h
    rw [hicon] at hicon2
    obtain rfl : ihs = ihs2 := Except.ok.injEq .. ▸ hicon2
    subst hm
    refine ⟨mkUser (buildMapBy ums (fun u => u.id))
      (buildMapBy tms (fun t => t.userID))
      (buildMapBy ihs (fun r => r.userID)) uid, ?_, ?_, ?_⟩
    · rw [userRespOf, hres]
      dsimp only
      rw [foldl_insert_lookup, if_pos hmem]
    · have hnone2 : buildMapBy ihs (fun r => r.userID) uid = none := by
        refine buildMapBy_lookup_none _ _ _ (fun x hx => ?_)
        have := List.all_eq_true.mp hnone x hx
        simpa using this
      rw [mkUser]
      simp [hnone2]
    · have hnone2 : buildMapBy ihs (fun r => r.userID) uid = none := by
        refine buildMapBy_lookup_none _ _ _ (fun x hx => ?_)
        have := List.all_eq_true.mp hnone x hx
        simpa using this
      rw [mkUser]
      simp only [hnone2]
      decide

/-- C5 (amended): every error from fillReactionResponse — the zero-rows
no-rows error of a scalar lookup included — surfaces from the post-reaction
handler as InternalError 500 wrapping the underlying cause message. -/
theorem scalarLookupErrorsSurfaceInternal (env : Env) (req : PostReq)
    (l rid : Int) (r : PostReactionRequest) (es : List DBEvent) (e : DBErr)
    (hatoi : goAtoi req.livestreamIDParam = Except.ok l)
    (hsess : env.verifySession = Except.ok ())
    (hbody : decodeBody req.body = Except.ok (some r))
    (hbegin : env.beginTx = Except.ok ())
    (hins : env.insertReaction
      (pendingReaction env.sessionUserID l r.emojiName env.now) = Except.ok ())
    (hlast : env.lastInsertId = Except.ok rid)
    (hfill : fillReactionResponse env
      { pendingReaction env.sessionUserID l r.emojiName env.now with id := rid } =
      (es, Except.error e)) :
    (postReactionHandler env req).2 =
      HOut.httpError 500 ("failed to fill reaction: " ++ e.message) := by
  simp only [postReactionHandler, hatoi, hsess, hbody, hbegin, withTx,
             postReactionTx, hins, hlast, hfill]

/-- C6 (amended): in the list-reactions flow a failure of the bulk
reactions query surfaces as NotFound with a fixed message, while a failure
of the batch assembly or of the commit surfaces as InternalError wrapping
the underlying cause message. -/
theorem listReactionsFailureTaxonomy (env : Env) (req : GetReq) (l : Int)
    (lim : Option Int)
    (hsess : env.verifySession = Except.ok ())
    (hatoi : goAtoi req.livestreamIDParam = Except.ok l)
    (hbegin : env.beginTx = Except.ok ())
    (hlim : parseLimit req.limitParam = Except.ok lim) :
    (∀ e, env.selectReactions l lim = Except.error e →
      (getReactionsHandler env req).2 =
        HOut.httpError 404 "failed to get reactions") ∧
    (∀ rms es e, env.selectReactions l lim = Except.ok rms →
      fillReactionResponses env rms = (es, Except.error e) →
      (getReactionsHandler env req).2 =
        HOut.httpError 500 ("failed to fill reactions: " ++ e.message)) ∧
    (∀ rms es rs e, env.selectReactions l lim = Except.ok rms →
      fillReactionResponses env rms = (es, Except.ok rs) →
      env.commitTx = Except.error e →
      (getReactionsHandler env req).2 =
        HOut.httpError 500 ("failed to commit: " ++ e.message)) := by
  refine ⟨fun e hsel => ?_, fun rms es e hsel hfill => ?_,
          fun rms es rs e hsel hfill hcommit => ?_⟩
  · simp only [getReactionsHandler, hsess, hatoi, hbegin, withTx,
               getReactionsTx, hlim, hsel]
  · simp only [getReactionsHandler, hsess, hatoi, hbegin, withTx,
               getReactionsTx, hlim, hsel, hfill]
  · simp only [getReactionsHandler, hsess, hatoi, hbegin, withTx,
               getReactionsTx, hlim, hsel, hfill, hcommit]

/-- C7 (amended): the batch assembler short-circuits on an empty record
list with no store operation, while the bulk user loader on an empty id
list fails with the empty-IN-clause error — also without touching the store
— instead of returning an empty result. -/
theorem emptyInputShortCircuit (env : Env) :
    fillReactionResponses env [] = ([], Except.ok []) ∧
    fillUserResponses env [] =
      ([], Except.error (DBErr.other sqlxInEmptyMsg)) := by
  exact ⟨rfl, rfl⟩

/-- C8: a present, non-integer limit parameter makes the list-reactions
handler answer BadRequest 400 and issue no query (the trace holds only the
transaction begin and its deferred rollback). -/
theorem invalidLimitBadRequest (env : Env) (req : GetReq) (l : Int)
    (hsess : env.verifySession = Except.ok ())
    (hatoi : goAtoi req.livestreamIDParam = Except.ok l)
    (hbegin : env.beginTx = Except.ok ())
    (hne : req.limitParam ≠ "")
    (hbad : goAtoi req.limitParam = Except.error ()) :
    (getReactionsHandler env req).2 =
      HOut.httpError 400 "limit query parameter must be integer" ∧
    (getReactionsHandler env req).1.filter DBEvent.isQuery = [] := by
  have hpl : parseLimit req.limitParam = Except.error () := by
    rw [parseLimit, if_neg hne, hbad]
  constructor
  · simp only [getReactionsHandler, hsess, hatoi, hbegin, withTx,
               getReactionsTx, hpl]
  · simp only [getReactionsHandler, hsess, hatoi, hbegin, withTx,
               getReactionsTx, hpl]
    rfl

/-- C9: in both handlers, every trace in which a transaction was begun ends
with the deferred rollback — every exit path after BeginTxx, error exits,
the panic exit and the success path after commit alike, rolls back. -/
theorem rollbackOnEveryExit (env : Env) (reqG : GetReq) (reqP : PostReq) :
    (DBEvent.beginTx ∈ (getReactionsHandler env reqG).1 →
      (getReactionsHandler env reqG).1.getLast? = some DBEvent.rollbackTx) ∧
    (DBEvent.beginTx ∈ (postReactionHandler env reqP).1 →
      (postReactionHandler env reqP).1.getLast? = some DBEvent.rollbackTx) := by
  have hwtx : ∀ (α : Type) (b : List DBEvent × α),
      (withTx b).1.getLast? = some DBEvent.rollbackTx := by
    intro α b
    show (DBEvent.beginTx :: (b.1 ++ [DBEvent.rollbackTx])).getLast? = _
    rw [← List.cons_append, List.getLast?_concat]
  constructor
  · intro hmem
    unfold getReactionsHandler at hmem ⊢
    rcases hv : env.verifySession with p | u
    · rw [hv] at hmem; simp at hmem
    · rw [hv] at hmem
      rcases ha : goAtoi reqG.livestreamIDParam with e | l
      · rw [ha] at hmem; simp at hmem
      · rw [ha] at hmem
        rcases hb : env.beginTx with e | u2
        · rw [hb] at hmem; simp at hmem
        · exact hwtx _ _
  · intro hmem
    unfold postReactionHandler at hmem ⊢
    rcases ha : goAtoi reqP.livestreamIDParam with e | l
    · rw [ha] at hmem; simp at hmem
    · rw [ha] at hmem
      rcases hv : env.verifySession with p | u
      · rw [hv] at hmem; simp at hmem
      · rw [hv] at hmem
        rcases hd : decodeBody reqP.body with e | reqPtr
        · rw [hd] at hmem; simp at hmem
        · rw [hd] at hmem
          rcases hb : env.beginTx with e | u2
          · rw [hb] at hmem; simp at hmem
          · exact hwtx _ _

/-- C10: a request body that is the JSON literal null decodes without error
into a nil request pointer, on which the post-reaction handler panics with
the nil-pointer dereference instead of answering 400 the way it does for a
malformed body. -/
theorem nullBodyPanics (env : Env) (req : PostReq) (l : Int)
    (hatoi : goAtoi req.livestreamIDParam = Except.ok l)
    (hsess : env.verifySession = Except.ok ())
    (hbody : req.body = JsonBody.null)
    (hbegin : env.beginTx = Except.ok ()) :
    decodeBody req.body = Except.ok none ∧
    (postReactionHandler env req).2 = HOut.panicked nilDerefMsg ∧
    (postReactionHandler env { req with body := JsonBody.malformed }).2 =
      HOut.httpError 400 "failed to decode the request body as json" := by
  refine ⟨by rw [hbody]; rfl, ?_, ?_⟩
  · simp only [postReactionHandler, hatoi, hsess, hbody, decodeBody, hbegin,
               withTx, postReactionTx]
  · simp only [postReactionHandler, hatoi, hsess, decodeBody, hbegin]

/-- C3 evidence: the id collections handed to the bulk queries are not the
distinct referenced sets — for two records referencing only user 1 and
livestream 5 the code queries with [0, 0, 1, 1] and [0, 0, 5, 5]: the
make-then-append slip keeps one zero per record (an id no record
references), and duplicates are not removed. -/
theorem collectedIdsNotDistinct :
    userIDsOf [rmA, rmB] = [0, 0, 1, 1] ∧
    livestreamIDsOf [rmA, rmB] = [0, 0, 5, 5] ∧
    DBEvent.queryUsersIn [0, 0, 1, 1] ∈ (fillReactionResponses envW [rmA, rmB]).1 ∧
    DBEvent.queryLivestreamsIn [0, 0, 5, 5] ∈ (fillReactionResponses envW [rmA, rmB]).1 ∧
    (0 : Int) ∉ [rmA, rmB].map (fun r => r.userID) ∧
    ¬ ([0, 0, 1, 1] : List Int).Nodup := by
  refine ⟨rfl, rfl, by decide, by decide, by decide, by decide⟩

/-- C5 counterexample: with no matching user row, the scalar user lookup of
the post-reaction flow matches zero rows, and the handler answers
InternalError 500 wrapping the no-rows cause — not NotFound. -/
theorem scalarNoRowsNotFound_counterexample :
    (postReactionHandler (mkEnv dbNoUser) reqPostW).2 =
      HOut.httpError 500 "failed to fill reaction: sql: no rows in result set" := by
  decide

/-- C6 counterexample: a failing bulk reactions query (connection refused)
surfaces from the list-reactions handler as NotFound 404 with a fixed
message that does not wrap the cause, not as InternalError. -/
theorem reactionsQueryFailureNotFound_counterexample :
    (getReactionsHandler envBadSelect reqGetW).2 =
      HOut.httpError 404 "failed to get reactions" := by
  decide

/-- C7 counterexample: the bulk user loader applied to an empty id list
does not return an empty result: it fails with the empty-IN-clause error
(while indeed issuing no query). -/
theorem emptyIdsLoaderErrors_counterexample :
    fillUserResponses envW [] = ([], Except.error (DBErr.other sqlxInEmptyMsg)) ∧
    (fillUserResponses envW []).2 ≠ Except.ok GoMap.empty :=
  ⟨rfl, fun hc => Except.noConfusion hc⟩

/-- Witness for bulkQueryInvariant: a concrete successful three-record run
whose trace holds exactly one query of each bulk kind. -/
theorem bulkQueryInvariant_witness :
    ([rmA, rmB, rmC] ≠ ([] : List ReactionModel)) ∧
    fillReactionResponses envW [rmA, rmB, rmC] = (esW, Except.ok rsW) ∧
    (countEv DBEvent.isUsersIn esW = 1 ∧ countEv DBEvent.isThemesIn esW = 1 ∧
     countEv DBEvent.isIconHashesIn esW = 1 ∧
     countEv DBEvent.isLivestreamsIn esW = 1) :=
  ⟨by decide, by decide,
   bulkQueryInvariant envW [rmA, rmB, rmC] esW rsW (by decide) (by decide)⟩

/-- Witness for outputOrderMirrorsInput: a concrete two-record run (the
records permuted relative to the other witness run) whose output mirrors
the input order position by position. -/
theorem outputOrderMirrorsInput_witness :
    fillReactionResponses envW [rmC, rmA] = (esW2, Except.ok rsW2) ∧
    (rsW2.length = [rmC, rmA].length ∧
     ∃ uL lL, rsW2 = [rmC, rmA].map (composeReaction uL lL)) :=
  ⟨by decide, outputOrderMirrorsInput envW [rmC, rmA] esW2 rsW2 (by decide)⟩

/-- Witness for iconHashFallback: user 1 has no icon-hash row in the sample
tables, and its synthesized response carries the non-empty fallback hash. -/
theorem iconHashFallback_witness :
    (1 : Int) ∈ userIDsOf [rmA, rmB, rmC] ∧
    envW.selectIconHashesIn (userIDsOf [rmA, rmB, rmC]) =
      Except.ok [{ userID := 2, hash := "abc123" }] ∧
    ((fillUserResponses envW (userIDsOf [rmA, rmB, rmC])).2).isOk = true ∧
    ∃ u, userRespOf envW (userIDsOf [rmA, rmB, rmC]) 1 = some u ∧
      u.iconHash = fallbackImageHash ∧ u.iconHash ≠ "" :=
  ⟨by decide, by decide, by decide,
   iconHashFallback envW (userIDsOf [rmA, rmB, rmC]) 1
     [{ userID := 2, hash := "abc123" }]
     (by decide) (by decide) (by decide) (by decide)⟩

/-- Witness for scalarLookupErrorsSurfaceInternal: the concrete no-user run
surfaces 500 wrapping the no-rows message. -/
theorem scalarLookupErrorsSurfaceInternal_witness :
    (postReactionHandler (mkEnv dbNoUser) reqPostW).2 =
      HOut.httpError 500 ("failed to fill reaction: " ++ DBErr.noRows.message) :=
  scalarLookupErrorsSurfaceInternal (mkEnv dbNoUser) reqPostW 5 1
    { emojiName := ":tada:" } [DBEvent.queryUserById 1] DBErr.noRows
    (by decide) (by decide) (by decide) (by decide) (by decide) (by decide)
    (by decide)

/-- Witness for listReactionsFailureTaxonomy: the failing-reactions-query
branch at a concrete environment. -/
theorem listReactionsFailureTaxonomy_witness :
    parseLimit reqGetW.limitParam = Except.ok none ∧
    envBadSelect.selectReactions 5 none =
      Except.error (DBErr.other "connection refused") ∧
    (getReactionsHandler envBadSelect reqGetW).2 =
      HOut.httpError 404 "failed to get reactions" :=
  ⟨by decide, by decide,
   (listReactionsFailureTaxonomy envBadSelect reqGetW 5 none
     (by decide) (by decide) (by decide) (by decide)).1
     (DBErr.other "connection refused") (by decide)⟩

/-- Witness for invalidLimitBadRequest: limit=abc at a concrete
environment answers 400 with a query-free trace. -/
theorem invalidLimitBadRequest_witness :
    (getReactionsHandler envW reqBadLimit).2 =
      HOut.httpError 400 "limit query parameter must be integer" ∧
    (getReactionsHandler envW reqBadLimit).1.filter DBEvent.isQuery = [] :=
  invalidLimitBadRequest envW reqBadLimit 5
    (by decide) (by decide) (by decide) (by decide) (by decide)

/-- Witness for rollbackOnEveryExit: a concrete successful listing run
begins a transaction and its trace ends with the rollback. -/
theorem rollbackOnEveryExit_witness :
    DBEvent.beginTx ∈ (getReactionsHandler envW reqGetW).1 ∧
    (getReactionsHandler envW reqGetW).1.getLast? = some DBEvent.rollbackTx :=
  ⟨by decide, (rollbackOnEveryExit envW reqGetW reqPostW).1 (by decide)⟩

/-- Witness for nullBodyPanics: the concrete null-body request panics while
the malformed-body variant answers 400. -/
theorem nullBodyPanics_witness :
    decodeBody reqNullBody.body = Except.ok none ∧
    (postReactionHandler envW reqNullBody).2 = HOut.panicked nilDerefMsg ∧
    (postReactionHandler envW { reqNullBody with body := JsonBody.malformed }).2 =
      HOut.httpError 400 "failed to decode the request body as json" :=
  nullBodyPanics envW reqNullBody 5 (by decide) (by decide) (by decide) (by decide)

end Isu
